import Mathlib

/-!
Shallow embedding of `src/functions/main.py` (Firebase manual OAuth + PKCE
Cloud Function).  The module-level configuration, the four stage functions
`exchange_code_for_tokens`, `verify_id_token`, `create_or_update_user`,
`create_custom_token`, and the request handler `handleOAuthCallback` are
translated into pure Lean functions.  External collaborators (provider token
endpoint, JWKS endpoint, Firestore, the Firebase token-signing capability)
are modelled by an explicit environment record whose fields give each call's
outcome; the handler additionally returns the list of outbound effects it
performed, so "no call was made" claims are statements about that trace.

Python exceptions are modelled by the class granularity the handler's
`except` clauses can distinguish:
  * `requests.HTTPError` (raised by `response.raise_for_status()` on a
    non-2xx status) is caught by `except requests.HTTPError`;
  * `jwt.InvalidTokenError` and its subclasses (`DecodeError`,
    `InvalidSignatureError`, `ExpiredSignatureError`,
    `ImmatureSignatureError`, `InvalidAudienceError`, `InvalidIssuerError`,
    `InvalidAlgorithmError`) are caught by `except jwt.InvalidTokenError`;
  * everything else falls through to `except Exception`.  In particular, in
    the `requests` library `Timeout` and `ConnectionError` derive from
    `RequestException`, not from `HTTPError`, and in PyJWT
    `PyJWKClientError` (raised by `PyJWKClient.get_signing_key_from_jwt`
    when the JWKS fetch fails or no key matches the token's `kid`) derives
    from `PyJWTError`, not from `InvalidTokenError` — so both land in the
    generic `except Exception` branch.

Python/JSON scalar values are modelled by `PyVal`; composite JSON values do
not occur in any claim and are not modelled.  `PyVal.pyServerTimestamp` is
the `firestore.SERVER_TIMESTAMP` sentinel (a truthy, non-`None` object).
-/

inductive PyVal where
  | pyNone
  | pyBool (b : Bool)
  | pyInt (n : Int)
  | pyStr (s : String)
  | pyServerTimestamp
deriving DecidableEq, Repr

/-- Python truthiness of a `PyVal` (`bool(v)`). -/
def PyVal.truthy : PyVal → Bool
  | .pyNone => false
  | .pyBool b => b
  | .pyInt n => n != 0
  | .pyStr s => s != ""
  | .pyServerTimestamp => true

/-- A Python dict with string keys, as an association list (unique keys,
insertion ordered). -/
abbrev PyDict := List (String × PyVal)

/-- Python `d.get(k)`: `Option.none` when the key is absent (Python `None`
from `.get` on a missing key); a present key bound to JSON null yields
`some .pyNone`. -/
def dictGet (d : PyDict) (k : String) : Option PyVal :=
  match d.find? (fun kv => kv.1 == k) with
  | some kv => some kv.2
  | none => none

/-- Python `d[k] = v`: replace in place if the key exists, else append. -/
def dictSet (d : PyDict) (k : String) (v : PyVal) : PyDict :=
  if d.any (fun kv => kv.1 == k) then
    d.map (fun kv => if kv.1 == k then (k, v) else kv)
  else d ++ [(k, v)]

/-- Truthiness of the result of `d.get(k)` (Python `None` is falsy). -/
def optTruthy : Option PyVal → Bool
  | none => false
  | some v => v.truthy

/-- The module-level configuration read from the environment at process
start (`OAUTH_ISSUER_URL`, `OAUTH_CLIENT_ID`, `OAUTH_CLIENT_SECRET`,
`OAUTH_REDIRECT_URI` default to `''`; `CUSTOM_CLAIM_NAME` defaults to
`None`, modelled as `Option String`). -/
structure Config where
  oauthIssuerUrl : String
  oauthClientId : String
  oauthClientSecret : String
  oauthRedirectUri : String
  customClaimName : Option String
deriving DecidableEq, Repr

/-- The handler's configuration check
`all([OAUTH_ISSUER_URL, OAUTH_CLIENT_ID, OAUTH_CLIENT_SECRET, OAUTH_REDIRECT_URI])`
(a list of strings is all-truthy iff each is non-empty). -/
def configOk (cfg : Config) : Bool :=
  cfg.oauthIssuerUrl != "" && cfg.oauthClientId != "" &&
    cfg.oauthClientSecret != "" && cfg.oauthRedirectUri != ""

/-- Python exceptions at the granularity of the handler's `except` clauses. -/
inductive PyExc where
  | httpError (detail : String)
  | invalidTokenError (detail : String)
  | otherExc (detail : String)
deriving DecidableEq, Repr

/-- Outcome of `requests.post(token_url, data=payload, timeout=10)` followed
by `raise_for_status()` and `.json()`. -/
inductive ExchangeOutcome where
  | ok (payload : PyDict)
  | httpStatusError (detail : String)
  | transportError (detail : String)
  | jsonDecodeError (detail : String)
deriving DecidableEq, Repr

/-- Outcome of `jwks_client.get_signing_key_from_jwt(id_token)`:
`malformedToken` is a `DecodeError` from parsing the token header (a
`jwt.InvalidTokenError` subclass, raised before the JWKS fetch);
`jwksFetchError` is a `PyJWKClientConnectionError` and `kidNotFound` a
`PyJWKClientError` — both derive from `PyJWTError`, not from
`InvalidTokenError`. -/
inductive SigningKeyOutcome where
  | ok
  | malformedToken (detail : String)
  | jwksFetchError (detail : String)
  | kidNotFound (detail : String)
deriving DecidableEq, Repr

/-- Abstract model of the identity token as seen by `jwt.decode`: whether
its header parses, the algorithm it asserts, whether the signature verifies
under the matched JWKS key, whether `exp`/`nbf` hold at verification time,
its `aud` and `iss` claims, and the decoded payload. -/
structure IdTokenModel where
  headerOk : Bool
  headerAlg : String
  sigValid : Bool
  timeValid : Bool
  aud : String
  iss : String
  payload : PyDict
deriving DecidableEq, Repr

/-- Outcome of `auth.create_custom_token`. -/
inductive MintOutcome where
  | ok (token : String)
  | failure (detail : String)
deriving DecidableEq, Repr

/-- Per-request outcomes of the external collaborators. -/
structure Env where
  exchange : ExchangeOutcome
  signingKey : SigningKeyOutcome
  token : IdTokenModel
  firestoreError : Option String
  mint : MintOutcome
deriving Repr

/-- Outbound effects performed during one request. -/
inductive Effect where
  | tokenExchange (redirectUri : PyVal)
  | jwksFetch
  | firestoreSet (docId : String) (data : PyDict)
  | mintToken (uid : String) (claims : Option PyDict)
deriving DecidableEq, Repr

/-- Whether an effect is a user-record write or a credential mint. -/
def Effect.isWriteOrMint : Effect → Bool
  | .firestoreSet _ _ => true
  | .mintToken _ _ => true
  | _ => false

/-- An HTTP response: status and the JSON-object body passed to
`json.dumps` (fields in insertion order). -/
structure HttpResponse where
  status : Nat
  body : PyDict
deriving DecidableEq, Repr

/-- An error response body `{'error': kind, 'message': msg}`. -/
def errResponse (kind msg : String) (status : Nat) : HttpResponse :=
  ⟨status, [("error", .pyStr kind), ("message", .pyStr msg)]⟩

/-- The handler's three `except` clauses, in order: `requests.HTTPError`,
`jwt.InvalidTokenError`, `Exception`. -/
def mapExc : PyExc → HttpResponse
  | .httpError d =>
      errResponse "token_exchange_failed"
        ("Failed to exchange authorization code: " ++ d) 500
  | .invalidTokenError d =>
      errResponse "invalid_token" ("ID token verification failed: " ++ d) 401
  | .otherExc d =>
      errResponse "internal_error" ("An unexpected error occurred: " ++ d) 500

/-- Python's `str.split(sep)` for a one-character separator:
`pySplitChar sep l` splits `l` at every occurrence of `sep`, keeping empty
segments (`''.split('|') == ['']`, `'a|'.split('|') == ['a','']`). -/
def pySplitChar (sep : Char) : List Char → List (List Char)
  | [] => [[]]
  | c :: cs =>
    let r := pySplitChar sep cs
    if c = sep then [] :: r
    else
      match r with
      | [] => [[c]]
      | h :: t => (c :: h) :: t

/-- Line 147 of `main.py`:
`auth_uid = subject.split('|')[-1] if '|' in subject else subject`. -/
def deriveUid (subject : String) : String :=
  if '|' ∈ subject.data then
    String.mk ((pySplitChar '|' subject.data).getLastD [])
  else subject

/-- The `profile_data` dict built by `create_or_update_user`: the six base
fields (with `claims.get(...)` giving `None` for absent keys and
`firestore.SERVER_TIMESTAMP` for `updated_at`), then the configured custom
claim if `CUSTOM_CLAIM_NAME` is truthy and the key is in `claims`, then the
`None`-value filter. -/
def buildProfileData (ccn : Option String) (claims : PyDict) : PyDict :=
  let getOr := fun k => (dictGet claims k).getD PyVal.pyNone
  let pd : PyDict :=
    [("sub", getOr "sub"), ("email", getOr "email"), ("name", getOr "name"),
     ("given_name", getOr "given_name"), ("family_name", getOr "family_name"),
     ("updated_at", PyVal.pyServerTimestamp)]
  let pd :=
    match ccn with
    | some n =>
        if n != "" && (dictGet claims n).isSome then
          dictSet pd n ((dictGet claims n).getD PyVal.pyNone)
        else pd
    | none => pd
  pd.filter (fun kv => kv.2 != PyVal.pyNone)

/-- The `developer_claims` dict built by `create_custom_token`: just the
configured custom claim when `CUSTOM_CLAIM_NAME` is truthy and present in
`claims` (its value is NOT filtered for `None` here). -/
def buildDeveloperClaims (ccn : Option String) (claims : PyDict) : PyDict :=
  match ccn with
  | some n =>
      if n != "" && (dictGet claims n).isSome then
        [(n, (dictGet claims n).getD PyVal.pyNone)]
      else []
  | none => []

/-- `exchange_code_for_tokens(code, code_verifier, redirect_uri)`: computes
the effective redirect URI (`redirect_uri or OAUTH_REDIRECT_URI`), performs
one POST to the token endpoint, raises `requests.HTTPError` on a non-2xx
status; transport errors (`Timeout`, `ConnectionError`) and a non-JSON 2xx
body raise exceptions that are not `HTTPError`. -/
def exchange_code_for_tokens (cfg : Config) (redirectUri : Option PyVal)
    (env : Env) : Except PyExc PyDict × List Effect :=
  let effectiveRedirectUri : PyVal :=
    match redirectUri with
    | some v => if v.truthy then v else .pyStr cfg.oauthRedirectUri
    | none => .pyStr cfg.oauthRedirectUri
  match env.exchange with
  | .ok payload => (.ok payload, [.tokenExchange effectiveRedirectUri])
  | .httpStatusError d => (.error (.httpError d), [.tokenExchange effectiveRedirectUri])
  | .transportError d => (.error (.otherExc d), [.tokenExchange effectiveRedirectUri])
  | .jsonDecodeError d => (.error (.otherExc d), [.tokenExchange effectiveRedirectUri])

/-- Semantics of
`jwt.decode(id_token, key, algorithms, audience, issuer)`: every failing
check raises a subclass of `jwt.InvalidTokenError`; in particular an
asserted algorithm outside the `algorithms` list raises
`InvalidAlgorithmError`. -/
def jwtDecode (tok : IdTokenModel) (algorithms : List String)
    (audience issuer : String) : Except PyExc PyDict :=
  if !tok.headerOk then
    .error (.invalidTokenError "DecodeError: malformed token")
  else if !(algorithms.contains tok.headerAlg) then
    .error (.invalidTokenError ("InvalidAlgorithmError: " ++ tok.headerAlg))
  else if !tok.sigValid then
    .error (.invalidTokenError "InvalidSignatureError: signature mismatch")
  else if !tok.timeValid then
    .error (.invalidTokenError "ExpiredSignatureError: token is not currently valid")
  else if tok.aud != audience then
    .error (.invalidTokenError "InvalidAudienceError: audience mismatch")
  else if tok.iss != issuer then
    .error (.invalidTokenError "InvalidIssuerError: issuer mismatch")
  else .ok tok.payload

/-- `verify_id_token(id_token)`: `get_signing_key_from_jwt` first (header
parse, then JWKS fetch and `kid` match — the fetch happens unless the header
is malformed), then `jwt.decode` with `algorithms=['RS256']`,
`audience=OAUTH_CLIENT_ID`, `issuer=OAUTH_ISSUER_URL`. -/
def verify_id_token (cfg : Config) (env : Env) :
    Except PyExc PyDict × List Effect :=
  match env.signingKey with
  | .malformedToken d => (.error (.invalidTokenError d), [])
  | .jwksFetchError d => (.error (.otherExc d), [.jwksFetch])
  | .kidNotFound d => (.error (.otherExc d), [.jwksFetch])
  | .ok =>
      (jwtDecode env.token ["RS256"] cfg.oauthClientId cfg.oauthIssuerUrl,
       [.jwksFetch])

/-- `create_or_update_user(claims)`: requires a truthy `sub` claim (else
`ValueError`, not an `InvalidTokenError`), derives the uid, builds the
profile and merge-upserts it into `users/<auth_uid>`.  A non-string truthy
`sub` would fail inside `'|' in subject` / `subject.split` with a
`TypeError`. -/
def create_or_update_user (cfg : Config) (claims : PyDict) (env : Env) :
    Except PyExc String × List Effect :=
  let sub := dictGet claims "sub"
  if !(optTruthy sub) then
    (.error (.otherExc "ValueError: ID token missing sub claim"), [])
  else
    match sub with
    | some (.pyStr s) =>
        let authUid := deriveUid s
        let profile := buildProfileData cfg.customClaimName claims
        match env.firestoreError with
        | some d => (.error (.otherExc d), [.firestoreSet authUid profile])
        | none => (.ok authUid, [.firestoreSet authUid profile])
    | _ => (.error (.otherExc "TypeError: sub is not a string"), [])

/-- `create_custom_token(uid, claims)`: builds `developer_claims`, passes
`None` instead when it is empty, and requests the signed custom token. -/
def create_custom_token (cfg : Config) (uid : String) (claims : PyDict)
    (env : Env) : Except PyExc String × List Effect :=
  let dc := buildDeveloperClaims cfg.customClaimName claims
  let bag : Option PyDict := if dc.isEmpty then none else some dc
  match env.mint with
  | .failure d => (.error (.otherExc d), [.mintToken uid bag])
  | .ok tok => (.ok tok, [.mintToken uid bag])

/-- `handleOAuthCallback(req)`: the request handler.  `body` is the result
of `req.get_json(silent=True)` — `none` when the body is missing or not
valid JSON, otherwise the parsed JSON object.  Returns the response and the
trace of outbound effects. -/
def handleOAuthCallback (cfg : Config) (body : Option PyDict) (env : Env) :
    HttpResponse × List Effect :=
  if !(configOk cfg) then
    (errResponse "configuration_error"
      "Cloud Function not properly configured. Check environment variables." 500, [])
  else
    match body with
    | none => (errResponse "invalid_request" "Request body must be JSON" 400, [])
    | some rj =>
      if rj.isEmpty then
        (errResponse "invalid_request" "Request body must be JSON" 400, [])
      else
        let code := dictGet rj "code"
        let codeVerifier := dictGet rj "codeVerifier"
        let redirectUri := dictGet rj "redirectUri"
        if !(optTruthy code) || !(optTruthy codeVerifier) then
          (errResponse "invalid_request" "Missing code or codeVerifier" 400, [])
        else
          match exchange_code_for_tokens cfg redirectUri env with
          | (.error e, tr1) => (mapExc e, tr1)
          | (.ok tokenResponse, tr1) =>
            if !(optTruthy (dictGet tokenResponse "id_token")) then
              (errResponse "token_error" "No ID token received" 500, tr1)
            else
              match verify_id_token cfg env with
              | (.error e, tr2) => (mapExc e, tr1 ++ tr2)
              | (.ok decodedClaims, tr2) =>
                match create_or_update_user cfg decodedClaims env with
                | (.error e, tr3) => (mapExc e, tr1 ++ tr2 ++ tr3)
                | (.ok uid, tr3) =>
                  match create_custom_token cfg uid decodedClaims env with
                  | (.error e, tr4) => (mapExc e, tr1 ++ tr2 ++ tr3 ++ tr4)
                  | (.ok customToken, tr4) =>
                    (⟨200, [("customToken", .pyStr customToken),
                            ("uid", .pyStr uid)]⟩,
                     tr1 ++ tr2 ++ tr3 ++ tr4)

/-- The spec's error taxonomy: kind paired with its HTTP status. -/
def errorKinds : List (String × Nat) :=
  [("configuration_error", 500), ("invalid_request", 400), ("token_error", 500),
   ("token_exchange_failed", 500), ("invalid_token", 401), ("internal_error", 500)]

/-! ### Helper lemmas -/

theorem dictGet_nil (k : String) : dictGet [] k = none := rfl

theorem isEmpty_false_of_code_truthy {rj : PyDict} {k : String}
    (h : optTruthy (dictGet rj k) = true) : rj.isEmpty = false := by
  cases rj with
  | nil => simp [dictGet, optTruthy] at h
  | cons a l => rfl

/-! ### C4 -/

/-- C4: the derived user identifier is a deterministic pure function of the
subject claim: `"idp|12345"` derives to `"12345"`, `"abc123"` (no
separator) derives to itself, and the same subject always derives the same
identifier. -/
theorem c4_deriveUid_deterministic :
    deriveUid "idp|12345" = "12345" ∧ deriveUid "abc123" = "abc123" ∧
      ∀ s : String, deriveUid s = deriveUid s :=
  ⟨by decide, by decide, fun _ => rfl⟩

/-! ### C8 -/

/-- C8: if any of the four required configuration values is empty, every
request gets HTTP 500 with error kind `configuration_error` and no outbound
effect is performed. -/
theorem c8_missing_config_fails_fast (cfg : Config) (body : Option PyDict)
    (env : Env)
    (h : cfg.oauthIssuerUrl = "" ∨ cfg.oauthClientId = "" ∨
      cfg.oauthClientSecret = "" ∨ cfg.oauthRedirectUri = "") :
    handleOAuthCallback cfg body env =
      (errResponse "configuration_error"
        "Cloud Function not properly configured. Check environment variables."
        500, []) := by
  have hc : configOk cfg = false := by
    rcases h with h | h | h | h <;> simp [configOk, h]
  simp [handleOAuthCallback, hc]

/-- C8 witness: a concrete misconfigured deployment (empty client id). -/
theorem c8_missing_config_fails_fast_witness :
    handleOAuthCallback ⟨"https://iss", "", "sec", "https://cb", none⟩ none
        ⟨.ok [], .ok, ⟨true, "RS256", true, true, "", "", []⟩, none, .ok ""⟩ =
      (errResponse "configuration_error"
        "Cloud Function not properly configured. Check environment variables."
        500, []) :=
  c8_missing_config_fails_fast _ _ _ (Or.inr (Or.inl rfl))

/-! ### C7 -/

/-- C7: a missing/invalid JSON body, or a body lacking a non-empty `code`
or a non-empty `codeVerifier`, yields HTTP 400 with kind `invalid_request`
and an empty outbound-effect trace (no token exchange, JWKS fetch, store
write, or mint).  The configuration must be valid, since the configuration
check runs first. -/
theorem c7_invalid_request (cfg : Config) (body : Option PyDict) (env : Env)
    (hcfg : configOk cfg = true)
    (h : body = none ∨ ∃ rj, body = some rj ∧
      (rj = [] ∨ optTruthy (dictGet rj "code") = false ∨
        optTruthy (dictGet rj "codeVerifier") = false)) :
    ∃ msg, handleOAuthCallback cfg body env =
      (errResponse "invalid_request" msg 400, []) := by
  rcases h with h | ⟨rj, hb, h⟩
  · exact ⟨"Request body must be JSON", by simp [handleOAuthCallback, hcfg, h]⟩
  · subst hb
    by_cases he : rj.isEmpty
    · exact ⟨"Request body must be JSON", by simp [handleOAuthCallback, hcfg, he]⟩
    · rcases h with h | h | h
      · exact absurd (by simp [h]) he
      · exact ⟨"Missing code or codeVerifier",
          by simp [handleOAuthCallback, hcfg, he, h]⟩
      · exact ⟨"Missing code or codeVerifier",
          by simp [handleOAuthCallback, hcfg, he, h]⟩

/-- C7 witness: a body carrying only a `code`. -/
theorem c7_invalid_request_witness :
    ∃ msg, handleOAuthCallback ⟨"https://iss", "cid", "sec", "https://cb", none⟩
        (some [("code", .pyStr "c")])
        ⟨.ok [], .ok, ⟨true, "RS256", true, true, "", "", []⟩, none, .ok ""⟩ =
      (errResponse "invalid_request" msg 400, []) :=
  c7_invalid_request _ _ _ (by decide)
    (Or.inr ⟨[("code", .pyStr "c")], rfl, Or.inr (Or.inr (by decide))⟩)

/-! ### C6 -/

/-- C6 (amended): with a valid configuration and a well-formed request, a
non-success HTTP status from the provider (a `requests.HTTPError` from
`raise_for_status`) yields HTTP 500 with kind `token_exchange_failed` and a
message carrying the upstream detail; a transport failure (timeout or
unreachable host — `requests.Timeout`/`ConnectionError`, which are not
`HTTPError` subclasses) instead yields HTTP 500 with kind `internal_error`. -/
theorem c6_exchange_failure_mapping (cfg : Config) (rj : PyDict) (env : Env)
    (d : String) (hcfg : configOk cfg = true)
    (hcode : optTruthy (dictGet rj "code") = true)
    (hver : optTruthy (dictGet rj "codeVerifier") = true) :
    (env.exchange = .httpStatusError d →
      (handleOAuthCallback cfg (some rj) env).1 =
        errResponse "token_exchange_failed"
          ("Failed to exchange authorization code: " ++ d) 500) ∧
    (env.exchange = .transportError d →
      (handleOAuthCallback cfg (some rj) env).1 =
        errResponse "internal_error"
          ("An unexpected error occurred: " ++ d) 500) := by
  have he := isEmpty_false_of_code_truthy hcode
  constructor <;> intro hex <;>
    simp [handleOAuthCallback, exchange_code_for_tokens, hcfg, he, hcode, hver,
      hex, mapExc]

/-- C6 witness: a concrete provider 400 response. -/
theorem c6_exchange_failure_mapping_witness :
    (handleOAuthCallback ⟨"https://iss", "cid", "sec", "https://cb", none⟩
        (some [("code", .pyStr "c"), ("codeVerifier", .pyStr "v")])
        ⟨.httpStatusError "400 Client Error: Bad Request", .ok,
          ⟨true, "RS256", true, true, "cid", "https://iss", []⟩, none,
          .ok "t"⟩).1 =
      errResponse "token_exchange_failed"
        ("Failed to exchange authorization code: " ++
          "400 Client Error: Bad Request") 500 :=
  (c6_exchange_failure_mapping _ _ _ _ (by decide) (by decide) (by decide)).1
    rfl

/-- C6 counterexample: a transport failure (a connect timeout) is mapped to
`internal_error`, not to `token_exchange_failed` as the claim states. -/
theorem c6_transport_failure_counterexample :
    (handleOAuthCallback ⟨"https://iss", "cid", "sec", "https://cb", none⟩
        (some [("code", .pyStr "c"), ("codeVerifier", .pyStr "v")])
        ⟨.transportError "ConnectTimeout: connection timed out", .ok,
          ⟨true, "RS256", true, true, "cid", "https://iss", []⟩, none,
          .ok "t"⟩).1 =
      errResponse "internal_error"
        "An unexpected error occurred: ConnectTimeout: connection timed out"
        500 ∧
    dictGet (handleOAuthCallback ⟨"https://iss", "cid", "sec", "https://cb", none⟩
        (some [("code", .pyStr "c"), ("codeVerifier", .pyStr "v")])
        ⟨.transportError "ConnectTimeout: connection timed out", .ok,
          ⟨true, "RS256", true, true, "cid", "https://iss", []⟩, none,
          .ok "t"⟩).1.body "error" ≠ some (.pyStr "token_exchange_failed") :=
  by decide

/-! ### C1 -/

/-- C1: when the configuration is valid, the request carries a truthy
`code` and `codeVerifier`, the exchange succeeds with a truthy `id_token`,
the signing key resolves, every `jwt.decode` check passes, the payload has
a non-empty string subject, and the store write and mint succeed, the
handler returns HTTP 200 with a body of exactly the string fields
`customToken` (the minted credential) and `uid` (the identifier derived
from the subject claim). -/
theorem c1_success_response (cfg : Config) (rj : PyDict) (env : Env)
    (payload : PyDict) (s tok : String)
    (hcfg : configOk cfg = true)
    (hcode : optTruthy (dictGet rj "code") = true)
    (hver : optTruthy (dictGet rj "codeVerifier") = true)
    (hex : env.exchange = .ok payload)
    (hid : optTruthy (dictGet payload "id_token") = true)
    (hsk : env.signingKey = .ok)
    (hho : env.token.headerOk = true)
    (halg : env.token.headerAlg = "RS256")
    (hsig : env.token.sigValid = true)
    (htime : env.token.timeValid = true)
    (haud : env.token.aud = cfg.oauthClientId)
    (hiss : env.token.iss = cfg.oauthIssuerUrl)
    (hsub : dictGet env.token.payload "sub" = some (.pyStr s))
    (hs : s ≠ "")
    (hfs : env.firestoreError = none)
    (hmint : env.mint = .ok tok) :
    (handleOAuthCallback cfg (some rj) env).1 =
      ⟨200, [("customToken", .pyStr tok), ("uid", .pyStr (deriveUid s))]⟩ := by
  have he := isEmpty_false_of_code_truthy hcode
  have hsubT : optTruthy (dictGet env.token.payload "sub") = true := by
    rw [hsub]; simp [optTruthy, PyVal.truthy, hs]
  simp [handleOAuthCallback, exchange_code_for_tokens, verify_id_token,
    jwtDecode, create_or_update_user, create_custom_token, hcfg, he, hcode,
    hver, hex, hid, hsk, hho, halg, hsig, htime, haud, hiss, hsub, hsubT,
    hfs, hmint]
  simp [optTruthy, PyVal.truthy, hs]

/-- C1 witness: a fully successful concrete run. -/
theorem c1_success_response_witness :
    (handleOAuthCallback ⟨"https://iss", "cid", "sec", "https://cb", none⟩
        (some [("code", .pyStr "c"), ("codeVerifier", .pyStr "v")])
        ⟨.ok [("id_token", .pyStr "jwt")], .ok,
          ⟨true, "RS256", true, true, "cid", "https://iss",
            [("sub", .pyStr "idp|123")]⟩, none, .ok "CTOK"⟩).1 =
      ⟨200, [("customToken", .pyStr "CTOK"),
             ("uid", .pyStr (deriveUid "idp|123"))]⟩ :=
  c1_success_response _ _ _ [("id_token", .pyStr "jwt")] "idp|123" "CTOK"
    (by decide) (by decide) (by decide) rfl (by decide) rfl rfl rfl rfl rfl
    rfl rfl rfl (by decide) rfl rfl

/-! ### C2 / C3 -/

theorem jwtDecode_error_class (tok : IdTokenModel) (algs : List String)
    (aud iss : String) (e : PyExc)
    (h : jwtDecode tok algs aud iss = .error e) :
    ∃ m, e = .invalidTokenError m := by
  unfold jwtDecode at h
  repeat' split at h
  all_goals simp_all
  all_goals exact ⟨_, h.symm⟩

theorem jwtDecode_not_ok_of_bad_alg (tok : IdTokenModel) (aud iss : String)
    (halg : tok.headerAlg ≠ "RS256") (p : PyDict) :
    jwtDecode tok ["RS256"] aud iss ≠ .ok p := by
  unfold jwtDecode
  have hc : (["RS256"].contains tok.headerAlg) = false := by
    simp [halg]
  repeat' split
  all_goals simp_all

/-- C2 (amended): with the pipeline reaching verification, any failure
raised as a `jwt.InvalidTokenError` — a malformed token (`DecodeError`
from the header parse) or any failing `jwt.decode` check (signature
mismatch, wrong audience, wrong issuer, expired or not-yet-valid token,
wrong algorithm) — yields HTTP 401 with kind `invalid_token`; an unknown
key id or a JWKS fetch failure raises `PyJWKClientError`, which is not an
`InvalidTokenError`, and instead yields HTTP 500 with kind
`internal_error`.  In every one of these cases neither the Firestore write
nor the custom-token mint is performed. -/
theorem c2_verify_failure_mapping (cfg : Config) (rj : PyDict) (env : Env)
    (payload : PyDict) (d : String)
    (hcfg : configOk cfg = true)
    (hcode : optTruthy (dictGet rj "code") = true)
    (hver : optTruthy (dictGet rj "codeVerifier") = true)
    (hex : env.exchange = .ok payload)
    (hid : optTruthy (dictGet payload "id_token") = true) :
    (env.signingKey = .malformedToken d →
      (handleOAuthCallback cfg (some rj) env).1 =
        errResponse "invalid_token"
          ("ID token verification failed: " ++ d) 401 ∧
      ((handleOAuthCallback cfg (some rj) env).2.all
        fun e => !e.isWriteOrMint) = true) ∧
    (env.signingKey = .ok →
      jwtDecode env.token ["RS256"] cfg.oauthClientId cfg.oauthIssuerUrl =
        .error (.invalidTokenError d) →
      (handleOAuthCallback cfg (some rj) env).1 =
        errResponse "invalid_token"
          ("ID token verification failed: " ++ d) 401 ∧
      ((handleOAuthCallback cfg (some rj) env).2.all
        fun e => !e.isWriteOrMint) = true) ∧
    ((env.signingKey = .jwksFetchError d ∨ env.signingKey = .kidNotFound d) →
      (handleOAuthCallback cfg (some rj) env).1 =
        errResponse "internal_error"
          ("An unexpected error occurred: " ++ d) 500 ∧
      ((handleOAuthCallback cfg (some rj) env).2.all
        fun e => !e.isWriteOrMint) = true) := by
  have he := isEmpty_false_of_code_truthy hcode
  refine ⟨fun hsk => ?_, fun hsk hjd => ?_, fun hsk => ?_⟩
  · simp [handleOAuthCallback, exchange_code_for_tokens, verify_id_token,
      hcfg, he, hcode, hver, hex, hid, hsk, mapExc, Effect.isWriteOrMint]
  · simp [handleOAuthCallback, exchange_code_for_tokens, verify_id_token,
      hcfg, he, hcode, hver, hex, hid, hsk, hjd, mapExc, Effect.isWriteOrMint]
  · rcases hsk with hsk | hsk <;>
      simp [handleOAuthCallback, exchange_code_for_tokens, verify_id_token,
        hcfg, he, hcode, hver, hex, hid, hsk, mapExc, Effect.isWriteOrMint]

/-- C2 witness: a concrete malformed token rejected with 401 and no
write/mint effect. -/
theorem c2_verify_failure_mapping_witness :
    (handleOAuthCallback ⟨"https://iss", "cid", "sec", "https://cb", none⟩
        (some [("code", .pyStr "c"), ("codeVerifier", .pyStr "v")])
        ⟨.ok [("id_token", .pyStr "jwt")],
          .malformedToken "Not enough segments",
          ⟨true, "RS256", true, true, "cid", "https://iss", []⟩, none,
          .ok "t"⟩).1 =
      errResponse "invalid_token"
        ("ID token verification failed: " ++ "Not enough segments") 401 ∧
    ((handleOAuthCallback ⟨"https://iss", "cid", "sec", "https://cb", none⟩
        (some [("code", .pyStr "c"), ("codeVerifier", .pyStr "v")])
        ⟨.ok [("id_token", .pyStr "jwt")],
          .malformedToken "Not enough segments",
          ⟨true, "RS256", true, true, "cid", "https://iss", []⟩, none,
          .ok "t"⟩).2.all fun e => !e.isWriteOrMint) = true :=
  (c2_verify_failure_mapping _ _ _ [("id_token", .pyStr "jwt")] _
    (by decide) (by decide) (by decide) rfl (by decide)).1 rfl

/-- C2 counterexample: an identity token whose key id is unknown to the
JWKS set fails verification, but the handler returns 500/`internal_error`
(the `PyJWKClientError` is not caught by `except jwt.InvalidTokenError`),
not 401/`invalid_token` as the claim states. -/
theorem c2_unknown_kid_counterexample :
    (handleOAuthCallback ⟨"https://iss", "cid", "sec", "https://cb", none⟩
        (some [("code", .pyStr "c"), ("codeVerifier", .pyStr "v")])
        ⟨.ok [("id_token", .pyStr "jwt")],
          .kidNotFound "Unable to find a signing key that matches: kid1",
          ⟨true, "RS256", true, true, "cid", "https://iss",
            [("sub", .pyStr "u1")]⟩, none, .ok "t"⟩).1 =
      errResponse "internal_error"
        "An unexpected error occurred: Unable to find a signing key that matches: kid1"
        500 ∧
    (handleOAuthCallback ⟨"https://iss", "cid", "sec", "https://cb", none⟩
        (some [("code", .pyStr "c"), ("codeVerifier", .pyStr "v")])
        ⟨.ok [("id_token", .pyStr "jwt")],
          .kidNotFound "Unable to find a signing key that matches: kid1",
          ⟨true, "RS256", true, true, "cid", "https://iss",
            [("sub", .pyStr "u1")]⟩, none, .ok "t"⟩).1.status ≠ 401 := by
  decide

/-- C3 (amended): `jwt.decode` is called with the fixed algorithm list
`['RS256']`, so verification never succeeds for a token asserting any
other algorithm; whenever the signing key resolves from the JWKS, such a
token is rejected with HTTP 401 and kind `invalid_token` (if the key id is
also unknown, the failure surfaces as 500/`internal_error` instead). -/
theorem c3_rs256_only (cfg : Config) (rj : PyDict) (env : Env)
    (payload : PyDict)
    (hcfg : configOk cfg = true)
    (hcode : optTruthy (dictGet rj "code") = true)
    (hver : optTruthy (dictGet rj "codeVerifier") = true)
    (hex : env.exchange = .ok payload)
    (hid : optTruthy (dictGet payload "id_token") = true)
    (halg : env.token.headerAlg ≠ "RS256") :
    (∀ p, jwtDecode env.token ["RS256"] cfg.oauthClientId cfg.oauthIssuerUrl ≠
      .ok p) ∧
    (env.signingKey = .ok →
      ∃ m, (handleOAuthCallback cfg (some rj) env).1 =
        errResponse "invalid_token" ("ID token verification failed: " ++ m)
          401) := by
  have he := isEmpty_false_of_code_truthy hcode
  refine ⟨fun p => jwtDecode_not_ok_of_bad_alg _ _ _ halg p, fun hsk => ?_⟩
  cases hjd : jwtDecode env.token ["RS256"] cfg.oauthClientId cfg.oauthIssuerUrl with
  | ok p => exact absurd hjd (jwtDecode_not_ok_of_bad_alg _ _ _ halg p)
  | error e =>
    obtain ⟨m, rfl⟩ := jwtDecode_error_class _ _ _ _ _ hjd
    exact ⟨m, by
      simp [handleOAuthCallback, exchange_code_for_tokens, verify_id_token,
        hcfg, he, hcode, hver, hex, hid, hsk, hjd, mapExc]⟩

/-- C3 witness: a concrete `HS256` token (known key id) rejected with
401/`invalid_token`. -/
theorem c3_rs256_only_witness :
    ∃ m, (handleOAuthCallback ⟨"https://iss", "cid", "sec", "https://cb", none⟩
        (some [("code", .pyStr "c"), ("codeVerifier", .pyStr "v")])
        ⟨.ok [("id_token", .pyStr "jwt")], .ok,
          ⟨true, "HS256", true, true, "cid", "https://iss",
            [("sub", .pyStr "u1")]⟩, none, .ok "t"⟩).1 =
      errResponse "invalid_token" ("ID token verification failed: " ++ m)
        401 :=
  (c3_rs256_only _ _ _ [("id_token", .pyStr "jwt")] (by decide) (by decide)
    (by decide) rfl (by decide) (by decide)).2 rfl

/-- C3 counterexample: a token asserting `none` as its algorithm whose key
id is additionally unknown is rejected as 500/`internal_error` — not as
401/`invalid_token` as the claim states for every non-RS256 token. -/
theorem c3_bad_alg_unknown_kid_counterexample :
    (handleOAuthCallback ⟨"https://iss", "cid", "sec", "https://cb", none⟩
        (some [("code", .pyStr "c"), ("codeVerifier", .pyStr "v")])
        ⟨.ok [("id_token", .pyStr "jwt")],
          .kidNotFound "Unable to find a signing key that matches: evil",
          ⟨true, "none", true, true, "cid", "https://iss",
            [("sub", .pyStr "u1")]⟩, none, .ok "t"⟩).1.status = 500 ∧
    dictGet (handleOAuthCallback ⟨"https://iss", "cid", "sec", "https://cb", none⟩
        (some [("code", .pyStr "c"), ("codeVerifier", .pyStr "v")])
        ⟨.ok [("id_token", .pyStr "jwt")],
          .kidNotFound "Unable to find a signing key that matches: evil",
          ⟨true, "none", true, true, "cid", "https://iss",
            [("sub", .pyStr "u1")]⟩, none, .ok "t"⟩).1.body "error" =
      some (.pyStr "internal_error") := by
  decide

/-! ### C5 -/

theorem mem_dictSet_self (d : PyDict) (k : String) (v : PyVal) :
    (k, v) ∈ dictSet d k v := by
  unfold dictSet
  split
  · next h =>
    rw [List.any_eq_true] at h
    obtain ⟨kv, hmem, hk⟩ := h
    refine List.mem_map.mpr ⟨kv, hmem, ?_⟩
    simp only [beq_iff_eq] at hk
    simp [hk]
  · exact List.mem_append_right _ (List.mem_singleton.mpr rfl)

theorem eq_of_mem_dictSet (d : PyDict) (k : String) (v w : PyVal)
    (h : (k, w) ∈ dictSet d k v) : w = v := by
  unfold dictSet at h
  split at h
  · obtain ⟨kv, hmem, heq⟩ := List.mem_map.mp h
    by_cases hk : kv.1 = k
    · simp [hk] at heq
      exact heq.symm
    · simp [hk] at heq
      exact absurd (by rw [heq]) hk
  · next hany =>
    rcases List.mem_append.mp h with h | h
    · exact absurd (List.any_eq_true.mpr ⟨(k, w), h, by simp⟩) hany
    · have h2 := List.mem_singleton.mp h
      exact (Prod.ext_iff.mp h2).2

/-- C5 (amended): custom-claim propagation.  When `CUSTOM_CLAIM_NAME` is
configured (a non-empty name) and the key is present in the verified
claims with a non-null value, that key/value pair appears both in the
profile data written to the user record and in the developer claims of
the minted credential.  When the name is unconfigured (absent or empty)
or the key is absent from the claims, the profile equals the
unconfigured profile and the developer-claims bag is empty.  But when the
key is present with a null value, it is kept in the developer claims
while the `None`-filter drops it from the profile — propagation is not
symmetric in that case. -/
theorem c5_custom_claim_propagation (claims : PyDict) (n : String)
    (v : PyVal) (ccn : Option String) (hn : n ≠ "") :
    (dictGet claims n = some v → v ≠ .pyNone →
      (n, v) ∈ buildProfileData (some n) claims ∧
      buildDeveloperClaims (some n) claims = [(n, v)]) ∧
    ((ccn = none ∨ ccn = some "" ∨
        (ccn = some n ∧ dictGet claims n = none)) →
      buildProfileData ccn claims = buildProfileData none claims ∧
      buildDeveloperClaims ccn claims = []) ∧
    (dictGet claims n = some .pyNone →
      buildDeveloperClaims (some n) claims = [(n, .pyNone)] ∧
      ∀ w, (n, w) ∉ buildProfileData (some n) claims) := by
  have hbp : ∀ w, dictGet claims n = some w →
      buildProfileData (some n) claims =
        (dictSet [("sub", (dictGet claims "sub").getD PyVal.pyNone),
            ("email", (dictGet claims "email").getD PyVal.pyNone),
            ("name", (dictGet claims "name").getD PyVal.pyNone),
            ("given_name", (dictGet claims "given_name").getD PyVal.pyNone),
            ("family_name", (dictGet claims "family_name").getD PyVal.pyNone),
            ("updated_at", PyVal.pyServerTimestamp)] n w).filter
          (fun kv => kv.2 != PyVal.pyNone) := by
    intro w hw
    simp [buildProfileData, hw, hn]
  have hbd : ∀ w, dictGet claims n = some w →
      buildDeveloperClaims (some n) claims = [(n, w)] := by
    intro w hw
    simp [buildDeveloperClaims, hw, hn]
  refine ⟨fun hp hv => ?_, fun hc => ?_, fun hp => ?_⟩
  · refine ⟨?_, hbd v hp⟩
    rw [hbp v hp]
    exact List.mem_filter.mpr ⟨mem_dictSet_self _ _ _, by simp [hv]⟩
  · rcases hc with hc | hc | ⟨hc, hg⟩
    · subst hc; exact ⟨rfl, rfl⟩
    · subst hc
      exact ⟨by simp [buildProfileData], by simp [buildDeveloperClaims]⟩
    · subst hc
      exact ⟨by simp [buildProfileData, hg], by simp [buildDeveloperClaims, hg]⟩
  · refine ⟨hbd _ hp, fun w hw => ?_⟩
    rw [hbp _ hp] at hw
    have hmem := (List.mem_filter.mp hw).1
    have hpred := (List.mem_filter.mp hw).2
    have hweq := eq_of_mem_dictSet _ _ _ _ hmem
    rw [hweq] at hpred
    simp at hpred

/-- C5 witness: a configured custom claim `"x"` with a non-null value
lands in both the profile and the developer claims. -/
theorem c5_custom_claim_propagation_witness :
    ("x", PyVal.pyStr "9") ∈
      buildProfileData (some "x") [("sub", .pyStr "s"), ("x", .pyStr "9")] ∧
    buildDeveloperClaims (some "x")
        [("sub", .pyStr "s"), ("x", .pyStr "9")] = [("x", .pyStr "9")] :=
  (c5_custom_claim_propagation [("sub", .pyStr "s"), ("x", .pyStr "9")] "x"
    (.pyStr "9") none (by decide)).1 (by decide) (by decide)

/-- C5 counterexample: with `CUSTOM_CLAIM_NAME = "x"` configured and `"x"`
present in the verified claims (with a JSON-null value), the claim appears
in the minted credential's developer claims but not in the profile data
written to the user record — so it does not appear in both. -/
theorem c5_null_claim_counterexample :
    buildDeveloperClaims (some "x") [("sub", .pyStr "s"), ("x", .pyNone)] =
      [("x", .pyNone)] ∧
    ((buildProfileData (some "x") [("sub", .pyStr "s"), ("x", .pyNone)]).all
      fun kv => kv.1 != "x") = true := by
  decide

/-! ### C9 -/

theorem errResponse_classified (kind msg : String) (status : Nat)
    (h : (kind, status) ∈ errorKinds) :
    ∃ k m, (errResponse kind msg status).body =
        [("error", PyVal.pyStr k), ("message", PyVal.pyStr m)] ∧
      (k, (errResponse kind msg status).status) ∈ errorKinds :=
  ⟨kind, msg, rfl, h⟩

theorem mapExc_classified (e : PyExc) :
    ∃ k m, (mapExc e).body =
        [("error", PyVal.pyStr k), ("message", PyVal.pyStr m)] ∧
      (k, (mapExc e).status) ∈ errorKinds := by
  cases e with
  | httpError d => exact errResponse_classified _ _ _ (by decide)
  | invalidTokenError d => exact errResponse_classified _ _ _ (by decide)
  | otherExc d => exact errResponse_classified _ _ _ (by decide)

/-- C9: the handler is a total function of the request and the
environment outcomes — it always returns exactly one response and no
exception escapes the orchestrator — and every response is either HTTP
200 with the success shape or carries a body
`{'error': kind, 'message': msg}` whose kind/status pair is one of
`configuration_error`(500), `invalid_request`(400), `token_error`(500),
`token_exchange_failed`(500), `invalid_token`(401), `internal_error`(500)
(the missing-`id_token` case mapping to `token_error`). -/
theorem c9_single_classified_response (cfg : Config) (body : Option PyDict)
    (env : Env) :
    ((handleOAuthCallback cfg body env).1.status = 200 ∧
      ∃ t u, (handleOAuthCallback cfg body env).1.body =
        [("customToken", PyVal.pyStr t), ("uid", PyVal.pyStr u)]) ∨
    (∃ k m, (handleOAuthCallback cfg body env).1.body =
        [("error", PyVal.pyStr k), ("message", PyVal.pyStr m)] ∧
      (k, (handleOAuthCallback cfg body env).1.status) ∈ errorKinds) := by
  simp only [handleOAuthCallback, exchange_code_for_tokens, verify_id_token,
    create_or_update_user, create_custom_token]
  repeat' split
  all_goals first
    | exact Or.inl ⟨rfl, _, _, rfl⟩
    | exact Or.inr (errResponse_classified _ _ _ (by decide))
    | exact Or.inr (mapExc_classified _)

/-! ### C10 -/

theorem pySplitChar_ne_nil (sep : Char) (l : List Char) :
    pySplitChar sep l ≠ [] := by
  cases l with
  | nil => simp [pySplitChar]
  | cons c cs =>
    simp only [pySplitChar]
    split
    · simp
    · split <;> simp

theorem getLastD_cons_eq {α : Type} (a d : α) (l : List α) :
    (a :: l).getLastD d = l.getLastD a := by
  cases l <;> rfl

theorem getLastD_irrel {α : Type} (l : List α) (h : l ≠ []) (a b : α) :
    l.getLastD a = l.getLastD b := by
  cases l with
  | nil => exact absurd rfl h
  | cons x xs => rw [getLastD_cons_eq, getLastD_cons_eq]

theorem pySplitChar_no_sep (sep : Char) (l : List Char) (h : sep ∉ l) :
    pySplitChar sep l = [l] := by
  induction l with
  | nil => rfl
  | cons c cs ih =>
    have hc : c ≠ sep := fun hh => h (hh ▸ List.mem_cons_self c cs)
    have hcs : sep ∉ cs := fun hh => h (List.mem_cons_of_mem c hh)
    simp only [pySplitChar, ih hcs]
    rw [if_neg hc]

theorem pySplitChar_mem_len (sep : Char) (l : List Char) (h : sep ∈ l) :
    ∃ x t, pySplitChar sep l = x :: t ∧ t ≠ [] := by
  induction l with
  | nil => cases h
  | cons c cs ih =>
    by_cases hc : c = sep
    · subst hc
      refine ⟨[], pySplitChar c cs, ?_, pySplitChar_ne_nil c cs⟩
      simp [pySplitChar]
    · have hcs : sep ∈ cs := by
        rcases List.mem_cons.mp h with h1 | h1
        · exact absurd h1.symm hc
        · exact h1
      obtain ⟨x, t, hx, ht⟩ := ih hcs
      refine ⟨c :: x, t, ?_, ht⟩
      simp only [pySplitChar, hx]
      rw [if_neg hc]

theorem getLastD_pySplitChar_append (sep : Char) (pre post : List Char)
    (h : sep ∉ post) :
    (pySplitChar sep (pre ++ sep :: post)).getLastD [] = post := by
  induction pre with
  | nil =>
    simp only [List.nil_append, pySplitChar, pySplitChar_no_sep sep post h]
    rw [if_pos trivial, getLastD_cons_eq]
    rfl
  | cons c cs ih =>
    by_cases hc : c = sep
    · subst hc
      have h1 : pySplitChar c (c :: (cs ++ c :: post)) =
          [] :: pySplitChar c (cs ++ c :: post) := by
        simp [pySplitChar]
      rw [List.cons_append, h1, getLastD_cons_eq]
      exact ih
    · have hmem : sep ∈ cs ++ sep :: post :=
        List.mem_append_right _ (List.mem_cons_self _ _)
      obtain ⟨x, t, hx, ht⟩ := pySplitChar_mem_len sep _ hmem
      have h1 : pySplitChar sep (c :: (cs ++ sep :: post)) = (c :: x) :: t := by
        simp only [pySplitChar, hx]
        rw [if_neg hc]
      rw [List.cons_append, h1, getLastD_cons_eq,
        getLastD_irrel t ht (c :: x) x, ← getLastD_cons_eq x [] t, ← hx]
      exact ih

/-- C10: for a subject containing a separator, the derived identifier is
the substring after the LAST `'|'` (Python `split('|')[-1]`): any
`pre ++ "|" ++ post` with `post` separator-free derives to `post`;
`"a|b|c"` derives to `"c"`, not `"b|c"`; a subject ending in `'|'`
derives to the empty string, and a concrete run with subject `"idp|"`
uses `""` as the Firestore document key and as the minted credential's
subject. -/
theorem c10_after_last_separator :
    (∀ pre post : String, '|' ∉ post.data →
      deriveUid (pre ++ "|" ++ post) = post) ∧
    deriveUid "a|b|c" = "c" ∧ deriveUid "a|b|c" ≠ "b|c" ∧
    deriveUid "idp|" = "" ∧
    Effect.firestoreSet ""
        [("sub", PyVal.pyStr "idp|"),
         ("updated_at", PyVal.pyServerTimestamp)] ∈
      (handleOAuthCallback ⟨"https://iss", "cid", "sec", "https://cb", none⟩
        (some [("code", .pyStr "c"), ("codeVerifier", .pyStr "v")])
        ⟨.ok [("id_token", .pyStr "jwt")], .ok,
          ⟨true, "RS256", true, true, "cid", "https://iss",
            [("sub", .pyStr "idp|")]⟩, none, .ok "t"⟩).2 ∧
    Effect.mintToken "" none ∈
      (handleOAuthCallback ⟨"https://iss", "cid", "sec", "https://cb", none⟩
        (some [("code", .pyStr "c"), ("codeVerifier", .pyStr "v")])
        ⟨.ok [("id_token", .pyStr "jwt")], .ok,
          ⟨true, "RS256", true, true, "cid", "https://iss",
            [("sub", .pyStr "idp|")]⟩, none, .ok "t"⟩).2 := by
  refine ⟨fun pre post h => ?_, by decide, by decide, by decide, by decide,
    by decide⟩
  have hdata : (pre ++ "|" ++ post).data = pre.data ++ '|' :: post.data := by
    show (pre.data ++ ['|']) ++ post.data = pre.data ++ '|' :: post.data
    simp
  unfold deriveUid
  rw [hdata, if_pos (List.mem_append_right _ (List.mem_cons_self _ _)),
    getLastD_pySplitChar_append _ _ _ h]

/-- C10 witness: the general after-the-last-separator fact at a concrete
input. -/
theorem c10_after_last_separator_witness :
    deriveUid ("left" ++ "|" ++ "right") = "right" :=
  c10_after_last_separator.1 "left" "right" (by decide)
